import Mathlib

/-!
Verification development for the discord-monitor core of crypto-signal-trader.

Each Lean definition is a shallow embedding of one function of the Python
source under src/discord-monitor/src/; machine strings are modelled as
Lean String where only literal comparison and concatenation occur, and as
List Char where the source relies on substring / suffix tests
(Python `in`, `startswith`, `endswith`).  Fallible or effectful code is
modelled by explicit outcome types; the network is modelled as an
environment function from attempt index to observed outcome.
-/

set_option maxRecDepth 8192

/-! ## api_client.py -/

/-- Retry bound, api_client.py line 15. -/
def MAX_RETRIES : Nat := 3

/-- Backoff schedule in seconds, api_client.py line 16. -/
def RETRY_DELAYS : List Nat := [1, 3, 10]

/-- Body of an HTTP response as seen by _post_with_retry: either a parsed
JSON dict (with its optional "error" field and its Python str rendering)
or plain text, api_client.py lines 60-63. -/
inductive RespBody where
  | jsonDict (errField : Option String) (rendering : String)
  | text (s : String)
deriving DecidableEq

/-- Python str(body), used for summaries and 5xx error notes. -/
def strBody : RespBody → String
  | .jsonDict _ r => r
  | .text s => s

/-- Python s[:n] — truncation to the first n code points. -/
def pyTruncate (s : String) (n : Nat) : String := String.mk (s.data.take n)

/-- body.get("error", str(body)) if isinstance(body, dict) else str(body),
api_client.py line 75. -/
def errorOf : RespBody → String
  | .jsonDict (some e) _ => e
  | .jsonDict none r => r
  | .text s => s

/-- What one POST attempt observes: an HTTP response with status and body,
or a transport-level exception with its message. -/
inductive AttemptOutcome where
  | response (status : Nat) (body : RespBody)
  | netError (msg : String)
deriving DecidableEq

/-- ExecutionResult dataclass, api_client.py lines 19-26. -/
structure ExecutionResult where
  success : Bool
  status_code : Nat
  summary : String
  error : Option String := none
  raw_response : Option RespBody := none
deriving DecidableEq

/-- The last_error string recorded for a retryable attempt:
"HTTP {status}: {str(body)[:200]}" for a 5xx response (line 85),
"Request failed: {e}" for an exception (line 88). -/
def lastErrorOf : AttemptOutcome → String
  | .response s b => "HTTP " ++ toString s ++ ": " ++ pyTruncate (strBody b) 200
  | .netError m => "Request failed: " ++ m

/-- An attempt outcome on which the loop keeps retrying: a 5xx response or
a transport exception (api_client.py lines 84-88). -/
def isRetryable : AttemptOutcome → Bool
  | .response s _ => decide (500 ≤ s)
  | .netError _ => true

/-- One iteration body of the retry loop (api_client.py lines 58-88):
returns the immediate ExecutionResult when the attempt terminates the loop
(status exactly 200, or any other status below 500), and none when the
attempt is retryable. -/
def attemptStep : AttemptOutcome → Option ExecutionResult
  | .response s b =>
      if s = 200 then
        some { success := true, status_code := 200,
               summary := pyTruncate (strBody b) 300, raw_response := some b }
      else if s < 500 then
        some { success := false, status_code := s, summary := "",
               error := some (errorOf b), raw_response := some b }
      else none
  | .netError _ => none

/-- Python str(last_error): the loop starts with last_error = None. -/
def renderLastError : Option String → String
  | none => "None"
  | some s => s

/-- The synthesized all-retries-exhausted failure, api_client.py lines 100-105. -/
def allRetriesFailed (lastError : Option String) : ExecutionResult :=
  { success := false, status_code := 0, summary := "",
    error := some ("All " ++ toString MAX_RETRIES ++ " retries failed: "
                    ++ renderLastError lastError) }

/-- The retry loop of _post_with_retry (api_client.py lines 56-105) as a
structural recursion on the remaining iterations (fuel = MAX_RETRIES at
entry, attempt counts 0,1,2,...).  The value is
(final ExecutionResult, list of sleep delays performed in order, number of
attempts issued). -/
def retryFrom (resp : Nat → AttemptOutcome) :
    Nat → Nat → Option String → ExecutionResult × List Nat × Nat
  | 0, _, lastError => (allRetriesFailed lastError, [], 0)
  | fuel + 1, attempt, _ =>
      match attemptStep (resp attempt) with
      | some r => (r, [], 1)
      | none =>
          let rest := retryFrom resp fuel (attempt + 1)
                        (some (lastErrorOf (resp attempt)))
          if attempt < MAX_RETRIES - 1 then
            (rest.1, RETRY_DELAYS.getD attempt 0 :: rest.2.1, rest.2.2 + 1)
          else
            (rest.1, rest.2.1, rest.2.2 + 1)

/-- _post_with_retry (api_client.py lines 50-105), with the remote side
abstracted as a function from attempt index to observed outcome. -/
def _post_with_retry (resp : Nat → AttemptOutcome) :
    ExecutionResult × List Nat × Nat :=
  retryFrom resp MAX_RETRIES 0 none

/-- The configuration fields of ApiConfig that api_client.py reads for
endpoint selection. -/
structure ApiConfig where
  base_url : String
  parse_endpoint : String
  execute_endpoint : String
  multi_user_enabled : Bool
deriving DecidableEq

/-- The observable decision made by a send entry point before any retry
logic runs: either a network POST is issued to a url with a payload, or
no call happens and a result is synthesized locally. -/
inductive SendDecision where
  | networkPost (url : String) (payload : String)
  | dryRunResult (r : ExecutionResult)
deriving DecidableEq

/-- Endpoint selection of send_signal (api_client.py lines 107-125): both
the dry-run and the live path POST the message, only the endpoint differs. -/
def send_signal (cfg : ApiConfig) (message : String) (dry_run : Bool) :
    SendDecision :=
  if dry_run then
    .networkPost (cfg.base_url ++ cfg.parse_endpoint) message
  else
    .networkPost (cfg.base_url ++ cfg.execute_endpoint) message

/-- send_trade (api_client.py lines 127-159) up to its decision point:
dry_run short-circuits with a synthesized success carrying a "[DRY RUN]"
summary and no network call; otherwise the POST goes to the broadcast or
single-account endpoint.  trade_request is carried as its Python str
rendering. -/
def send_trade (cfg : ApiConfig) (trade_request : String) (dry_run : Bool) :
    SendDecision :=
  if dry_run then
    .dryRunResult { success := true, status_code := 200,
                    summary := "[DRY RUN] " ++ trade_request }
  else if cfg.multi_user_enabled then
    .networkPost (cfg.base_url ++ "/api/broadcast-trade") trade_request
  else
    .networkPost (cfg.base_url ++ "/api/execute-trade") trade_request

/-! ## ai_parser.py -/

/-- The canonical quote-currency suffix, as a character sequence. -/
def USDT : List Char := "USDT".data

/-- Python s.endswith(suf) on character sequences. -/
def pyEndsWith (s suf : List Char) : Bool := decide (suf <:+ s)

/-- Python truthiness of an optional string (absent or empty is falsy). -/
def truthyStr : Option String → Bool
  | none => false
  | some s => !s.isEmpty

/-- Python truthiness of an optional character sequence. -/
def truthyChars : Option (List Char) → Bool
  | none => false
  | some l => !l.isEmpty

/-- Python truthiness of an optional number (absent or zero is falsy). -/
def truthyNum : Option ℚ → Bool
  | none => false
  | some q => decide (q ≠ 0)

/-- Python truthiness of an optional boolean (absent or False is falsy). -/
def truthyFlag : Option Bool → Bool
  | none => false
  | some b => b

/-- A candidate trade-action dict as produced by the primary classifier and
consumed by AiSignalParser._validate and SignalRouter._forward_signal.
Every field is optional, mirroring dict.get; prices are rationals
(the numeric JSON values the source manipulates); new_stop_loss and
new_take_profit distinguish an absent key from an explicit null. -/
structure Candidate where
  action : Option String := none
  symbol : Option (List Char) := none
  side : Option String := none
  entry_price : Option ℚ := none
  stop_loss : Option ℚ := none
  take_profit : Option ℚ := none
  close_ratio : Option ℚ := none
  new_stop_loss : Option (Option ℚ) := none
  new_take_profit : Option (Option ℚ) := none
  is_dca : Option Bool := none
  _detector_refinement : Option String := none
deriving DecidableEq

/-- The auto-suffixing step of AiSignalParser._validate
(ai_parser.py lines 299-301): append "USDT" when the symbol does not
already end with it. -/
def canonicalizeSymbol (sym : List Char) : List Char :=
  if !pyEndsWith sym USDT then sym ++ USDT else sym

/-- AiSignalParser._validate (ai_parser.py lines 284-328).  The Python
function mutates the dict in place (the symbol auto-suffix), so the model
returns the verdict together with the post-state of the candidate. -/
def _validate (parsed : Candidate) : Bool × Candidate :=
  if !truthyStr parsed.action then (false, parsed)
  else if parsed.action = some "INFO" then (true, parsed)
  else if !truthyChars parsed.symbol then (false, parsed)
  else
    (if parsed.action = some "ENTRY" then
       if truthyFlag parsed.is_dca then truthyNum parsed.entry_price
       else
         decide (parsed.side = some "LONG" ∨ parsed.side = some "SHORT")
           && truthyNum parsed.entry_price
     else if parsed.action = some "CANCEL" then true
     else if parsed.action = some "MOVE_SL" then true
     else if parsed.action = some "CLOSE" then
       match parsed.close_ratio with
       | none => true
       | some r => decide (0 < r) && decide (r ≤ 1)
     else false,
     if !pyEndsWith (parsed.symbol.getD []) USDT then
       { parsed with symbol := some (parsed.symbol.getD [] ++ USDT) }
     else parsed)

/-! ## trade_action_detector.py -/

/-- close_keywords of TradeActionDetector (trade_action_detector.py
lines 64-73). -/
def close_keywords : List (List Char) :=
  ["止盈出局".data, "出局".data, "全部平倉".data, "全部平仓".data,
   "平倉".data, "平仓".data, "清倉".data, "清仓".data]

/-- holding_keywords of TradeActionDetector (trade_action_detector.py
lines 76-83). -/
def holding_keywords : List (List Char) :=
  ["繼續持有".data, "继续持有".data, "繼續".data, "继续".data,
   "做成本保護繼續持有".data, "做成本保护继续持有".data]

/-- TradeActionDetector._contains_any (trade_action_detector.py
lines 181-185): any keyword occurring as a substring of the text. -/
def _contains_any (text : List Char) (keywords : List (List Char)) : Bool :=
  if text.isEmpty || keywords.isEmpty then false
  else keywords.any (fun kw => decide (kw <:+: text))

/-- TradeActionDetector.detect_close (trade_action_detector.py
lines 105-139): a close keyword must be present, and any holding keyword
suppresses the detection as contradictory. -/
def detect_close (message : List Char) : Bool :=
  if message.isEmpty then false
  else if !_contains_any message close_keywords then false
  else if _contains_any message holding_keywords then false
  else true

/-! ## signal_router.py -/

/-- Whether a classifier result carries no usable symbol (absent result, or
absent/empty symbol field): the condition under which the rescue step
installs the default fallback symbol. -/
def symbolAbsent : Option Candidate → Bool
  | none => true
  | some p => !truthyChars p.symbol

/-- The TradeActionDetector rescue step of SignalRouter._forward_signal
(signal_router.py lines 163-194), as a pure function from the primary
classifier result (none = failure) and the raw message content to the
refined result.  On classifier failure with a detected close, a fresh
CLOSE candidate with the BTCUSDT fallback symbol and an audit note is
synthesized; on an INFO result with a detected close, the result is
escalated in place (default symbol only when none was present); otherwise
the result is left untouched. -/
def _forward_signal_refine : Option Candidate → List Char → Option Candidate
  | none, content =>
      if detect_close content then
        some { action := some "CLOSE", symbol := some "BTCUSDT".data,
               _detector_refinement := some "NONE→CLOSE by TradeActionDetector" }
      else none
  | some p, content =>
      if p.action = some "INFO" then
        if detect_close content then
          some { p with
                 action := some "CLOSE",
                 _detector_refinement := some "INFO→CLOSE by TradeActionDetector",
                 symbol := if !truthyChars p.symbol then some "BTCUSDT".data
                           else p.symbol }
        else some p
      else some p

/-- One rich-content block of a message (signal_router.py lines 83-87). -/
structure Embed where
  title : Option (List Char) := none
  description : Option (List Char) := none
deriving DecidableEq

/-- The pre-parsed message dict handed to SignalRouter.handle_message
(signal_router.py lines 54-64): absent keys default to the empty string /
empty list exactly as msg.get does. -/
structure Msg where
  id : String := ""
  channel_id : String := ""
  guild_id : String := ""
  author_id : String := ""
  author_name : String := "?"
  content : List Char := []
  embeds : List Embed := []
deriving DecidableEq

/-- The filter configuration held by a SignalRouter (signal_router.py
lines 45-50): an empty list is a disabled filter, mirroring the Python
truthiness of the optional sets; ai_mode tells whether an AI parser was
injected. -/
structure RouterConfig where
  channel_ids : List String := []
  guild_ids : List String := []
  author_ids : List String := []
  ai_mode : Bool := true
deriving DecidableEq

/-- What one handle_message call does with the event: drop it, or forward
its assembled content into classification and delivery. -/
inductive HandleOutcome where
  | dropped
  | forwarded (content : List Char)
deriving DecidableEq

/-- Python str.strip() restricted to whitespace characters. -/
def pyStrip (l : List Char) : List Char :=
  ((l.dropWhile Char.isWhitespace).reverse.dropWhile Char.isWhitespace).reverse

/-- Content assembly of handle_message (signal_router.py lines 78-88):
message text first, then each embed title and description, newline-joined,
empty pieces skipped. -/
def buildContent (msg : Msg) : List Char :=
  let parts : List (List Char) :=
    (if msg.content.isEmpty then [] else [msg.content]) ++
    msg.embeds.flatMap (fun e =>
      (match e.title with
       | some t => if t.isEmpty then [] else [t]
       | none => []) ++
      (match e.description with
       | some d => if d.isEmpty then [] else [d]
       | none => []))
  List.intercalate ['\n'] parts

/-- SIGNAL_TYPES emoji-prefix table (signal_router.py lines 13-19),
in source (insertion) order. -/
def SIGNAL_TYPES : List (List Char × String) :=
  [("📢".data, "ENTRY"), ("⚠️".data, "CANCEL"), ("🚀".data, "INFO"),
   ("🛑".data, "INFO"), ("💰".data, "INFO")]

/-- KEYWORD_SIGNALS content table (signal_router.py lines 22-25). -/
def KEYWORD_SIGNALS : List (List Char × String) :=
  [("TP-SL 修改".data, "MODIFY"), ("TP-SL修改".data, "MODIFY")]

/-- ACTIONABLE_TYPES (signal_router.py line 28). -/
def ACTIONABLE_TYPES : List String := ["ENTRY", "CANCEL", "MODIFY"]

/-- SignalRouter._identify_type (signal_router.py lines 132-142). -/
def _identify_type (content : List Char) : String :=
  let stripped := pyStrip content
  match SIGNAL_TYPES.find? (fun et => decide (et.1 <+: stripped)) with
  | some et => et.2
  | none =>
      match KEYWORD_SIGNALS.find? (fun kt => decide (kt.1 <:+: stripped)) with
      | some kt => kt.2
      | none => "UNKNOWN"

/-- The dedup-set ceiling (signal_router.py line 52). -/
def _max_dedup_size : Nat := 10000

/-- SignalRouter._trim_dedup_set (signal_router.py lines 227-231) under
the insertion-order idealization of the seen collection: past the ceiling,
keep list[_max_dedup_size // 2 :].  Python enumerates the set in an
arbitrary hash-dependent order, so this deterministic instance (the
pick = identity case of _trim_dedup_set_py below) is adequate only for
content that does not depend on which half survives, such as the size
bound of claim C9; order-sensitive claims use _trim_dedup_set_py. -/
def _trim_dedup_set (ids : List String) : List String :=
  if ids.length > _max_dedup_size then ids.drop (_max_dedup_size / 2) else ids

/-- SignalRouter.handle_message (signal_router.py lines 54-130) as a state
transition on the seen-identifier collection: allow-list filters, content
assembly, emptiness check, duplicate suppression with recording and
trimming, then forwarding (unconditionally in AI mode, only for actionable
types in the regex fallback mode).  This is the insertion-order
(pick = identity) instance of handle_message_py below, adequate for
order-invariant content such as the size bound of claim C9. -/
def handle_message (r : RouterConfig) (seen : List String) (msg : Msg) :
    List String × HandleOutcome :=
  if r.channel_ids ≠ [] ∧ msg.channel_id ∉ r.channel_ids then (seen, .dropped)
  else if r.guild_ids ≠ [] ∧ msg.guild_id ∉ r.guild_ids then (seen, .dropped)
  else if r.author_ids ≠ [] ∧ msg.author_id ∉ r.author_ids then (seen, .dropped)
  else if pyStrip (buildContent msg) = [] then (seen, .dropped)
  else if msg.id ∈ seen then (seen, .dropped)
  else if r.ai_mode then
    (_trim_dedup_set (seen ++ [msg.id]), .forwarded (buildContent msg))
  else if _identify_type (buildContent msg) ∈ ACTIONABLE_TYPES then
    (_trim_dedup_set (seen ++ [msg.id]), .forwarded (buildContent msg))
  else (_trim_dedup_set (seen ++ [msg.id]), .dropped)

/-- The seen-identifier collection after a router starting from the empty
state (signal_router.py line 51) has handled a sequence of messages. -/
def handleAll (r : RouterConfig) (msgs : List Msg) : List String :=
  msgs.foldl (fun st m => (handle_message r st m).1) []

/-- The faithful model of _trim_dedup_set: Python's list(s) on a set s
returns the elements in an arbitrary, hash-dependent enumeration, so the
enumeration is taken as an environment parameter pick — a call is legal
when pick returns a permutation of its argument.  Past the ceiling the
retained collection is (pick ids)[_max_dedup_size // 2 :], an arbitrary
half that need not contain the most recently inserted identifier. -/
def _trim_dedup_set_py (pick : List String → List String)
    (ids : List String) : List String :=
  if ids.length > _max_dedup_size then
    (pick ids).drop (_max_dedup_size / 2)
  else ids

/-- SignalRouter.handle_message over the faithful trim model: identical to
handle_message except that the trim enumerates the seen collection with
the environment-supplied pick; handle_message is the pick = identity
(insertion-order) instance. -/
def handle_message_py (pick : List String → List String) (r : RouterConfig)
    (seen : List String) (msg : Msg) : List String × HandleOutcome :=
  if r.channel_ids ≠ [] ∧ msg.channel_id ∉ r.channel_ids then (seen, .dropped)
  else if r.guild_ids ≠ [] ∧ msg.guild_id ∉ r.guild_ids then (seen, .dropped)
  else if r.author_ids ≠ [] ∧ msg.author_id ∉ r.author_ids then (seen, .dropped)
  else if pyStrip (buildContent msg) = [] then (seen, .dropped)
  else if msg.id ∈ seen then (seen, .dropped)
  else if r.ai_mode then
    (_trim_dedup_set_py pick (seen ++ [msg.id]), .forwarded (buildContent msg))
  else if _identify_type (buildContent msg) ∈ ACTIONABLE_TYPES then
    (_trim_dedup_set_py pick (seen ++ [msg.id]), .forwarded (buildContent msg))
  else (_trim_dedup_set_py pick (seen ++ [msg.id]), .dropped)

/-- A full seen-state of 10,000 pairwise distinct identifiers. -/
def overfullSeen : List String :=
  (List.range 10000).map (fun n => "i" ++ toString n)

/-- An adversarial but legal set enumeration: it lists the identifier "x"
first (a permutation of its argument whenever "x" is a member), as the
hash-dependent iteration order of a Python set may. -/
def pickXFirst : List String → List String := fun l => "x" :: l.erase "x"

/-! ## Helper lemmas -/

theorem attemptStep_none_of_retryable (o : AttemptOutcome)
    (h : isRetryable o = true) : attemptStep o = none := by
  cases o with
  | response s b =>
      have hs : 500 ≤ s := by simpa [isRetryable] using h
      simp only [attemptStep]
      rw [if_neg (by omega), if_neg (by omega)]
  | netError m => rfl

theorem allRetriesFailed_some_eq (e : String) :
    allRetriesFailed (some e) =
      { success := false, status_code := 0, summary := "",
        error := some ("All 3 retries failed: " ++ e) } := by
  unfold allRetriesFailed
  rw [show toString MAX_RETRIES = "3" from by decide]
  rw [show ("All " ++ "3" ++ " retries failed: " : String)
        = "All 3 retries failed: " from by decide]
  rfl

theorem retryFrom_unfold_0 (resp : Nat → AttemptOutcome) :
    retryFrom resp 3 0 none =
      match attemptStep (resp 0) with
      | some r => (r, [], 1)
      | none =>
          let rest := retryFrom resp 2 1 (some (lastErrorOf (resp 0)))
          if 0 < MAX_RETRIES - 1 then
            (rest.1, RETRY_DELAYS.getD 0 0 :: rest.2.1, rest.2.2 + 1)
          else (rest.1, rest.2.1, rest.2.2 + 1) := rfl

theorem retryFrom_unfold_1 (resp : Nat → AttemptOutcome) (le : Option String) :
    retryFrom resp 2 1 le =
      match attemptStep (resp 1) with
      | some r => (r, [], 1)
      | none =>
          let rest := retryFrom resp 1 2 (some (lastErrorOf (resp 1)))
          if 1 < MAX_RETRIES - 1 then
            (rest.1, RETRY_DELAYS.getD 1 0 :: rest.2.1, rest.2.2 + 1)
          else (rest.1, rest.2.1, rest.2.2 + 1) := rfl

theorem retryFrom_unfold_2 (resp : Nat → AttemptOutcome) (le : Option String) :
    retryFrom resp 1 2 le =
      match attemptStep (resp 2) with
      | some r => (r, [], 1)
      | none =>
          let rest := retryFrom resp 0 3 (some (lastErrorOf (resp 2)))
          if 2 < MAX_RETRIES - 1 then
            (rest.1, RETRY_DELAYS.getD 2 0 :: rest.2.1, rest.2.2 + 1)
          else (rest.1, rest.2.1, rest.2.2 + 1) := rfl

/-! ## Claim C4 -/

/-- Claim C4: when all three attempts observe a 5xx response or a
network-level failure, _post_with_retry issues exactly 3 attempts, sleeps
exactly the first two configured delays (1 then 3), and returns a failure
outcome whose error text reports 3 as the attempt count together with the
last observed error. -/
theorem c4_retry_exhaustion (resp : Nat → AttemptOutcome)
    (h : ∀ i, i < MAX_RETRIES → isRetryable (resp i) = true) :
    _post_with_retry resp =
      ({ success := false, status_code := 0, summary := "",
         error := some ("All 3 retries failed: " ++ lastErrorOf (resp 2)) },
       [1, 3], 3) := by
  have h0 := attemptStep_none_of_retryable _ (h 0 (by decide))
  have h1 := attemptStep_none_of_retryable _ (h 1 (by decide))
  have h2 := attemptStep_none_of_retryable _ (h 2 (by decide))
  unfold _post_with_retry
  rw [show MAX_RETRIES = 3 from rfl]
  rw [retryFrom_unfold_0, h0]
  rw [retryFrom_unfold_1, h1]
  rw [retryFrom_unfold_2, h2]
  rfl

/-- Witness for c4_retry_exhaustion at the concrete environment that fails
every attempt with a connection error. -/
theorem c4_retry_exhaustion_witness :
    (∀ i, i < MAX_RETRIES →
        isRetryable ((fun _ => AttemptOutcome.netError "boom") i) = true) ∧
    _post_with_retry (fun _ => AttemptOutcome.netError "boom") =
      ({ success := false, status_code := 0, summary := "",
         error := some ("All 3 retries failed: " ++ "Request failed: boom") },
       [1, 3], 3) :=
  ⟨fun _ _ => rfl,
   c4_retry_exhaustion (fun _ => AttemptOutcome.netError "boom")
     (fun _ _ => rfl)⟩

/-! ## Claim C1 -/

/-- Claim C1 counterexample: a first attempt whose HTTP response has the
2xx status 201 does not yield a success outcome — it is routed into the
status < 500 client-error branch and returned as an immediate failure, so
the claim that every 2xx response returns success is false on the code. -/
theorem c1_two_xx_not_success :
    (200 < 201 ∧ 201 < 300) ∧
    _post_with_retry (fun _ => AttemptOutcome.response 201 (RespBody.text "created")) =
      ({ success := false, status_code := 201, summary := "",
         error := some "created",
         raw_response := some (RespBody.text "created") }, [], 1) := by
  constructor
  · exact ⟨by omega, by omega⟩
  · rfl

/-- Claim C1 amended: only a response with status exactly 200 returns a
success outcome immediately (body truncated to 300 characters as the
summary, one attempt, no sleeps); any other 2xx status is treated like a
client error and returned as an immediate failure after one attempt. -/
theorem c1_only_exact_200_succeeds :
    (∀ (resp : Nat → AttemptOutcome) (b : RespBody),
        resp 0 = AttemptOutcome.response 200 b →
        _post_with_retry resp =
          ({ success := true, status_code := 200,
             summary := pyTruncate (strBody b) 300, error := none,
             raw_response := some b }, [], 1)) ∧
    (∀ (resp : Nat → AttemptOutcome) (s : Nat) (b : RespBody),
        resp 0 = AttemptOutcome.response s b → 200 < s → s < 300 →
        _post_with_retry resp =
          ({ success := false, status_code := s, summary := "",
             error := some (errorOf b), raw_response := some b }, [], 1)) := by
  constructor
  · intro resp b h
    unfold _post_with_retry
    rw [show MAX_RETRIES = 3 from rfl]
    rw [retryFrom_unfold_0, h]
    rfl
  · intro resp s b h hlo hhi
    have hstep : attemptStep (resp 0) =
        some { success := false, status_code := s, summary := "",
               error := some (errorOf b), raw_response := some b } := by
      rw [h]
      simp only [attemptStep]
      rw [if_neg (by omega), if_pos (by omega)]
    unfold _post_with_retry
    rw [show MAX_RETRIES = 3 from rfl]
    rw [retryFrom_unfold_0, hstep]

/-- Witness for c1_only_exact_200_succeeds at two concrete environments:
a 200 response with body "ok", and a 204 response. -/
theorem c1_only_exact_200_succeeds_witness :
    _post_with_retry (fun _ => AttemptOutcome.response 200 (RespBody.text "ok")) =
      ({ success := true, status_code := 200, summary := "ok", error := none,
         raw_response := some (RespBody.text "ok") }, [], 1) ∧
    _post_with_retry (fun _ => AttemptOutcome.response 204 (RespBody.text "nc")) =
      ({ success := false, status_code := 204, summary := "",
         error := some "nc",
         raw_response := some (RespBody.text "nc") }, [], 1) := by
  constructor
  · exact c1_only_exact_200_succeeds.1
      (fun _ => AttemptOutcome.response 200 (RespBody.text "ok"))
      (RespBody.text "ok") rfl
  · exact c1_only_exact_200_succeeds.2
      (fun _ => AttemptOutcome.response 204 (RespBody.text "nc"))
      204 (RespBody.text "nc") rfl (by omega) (by omega)

/-! ## Claim C7 -/

/-- Claim C7 counterexample: a dry-run delivery of unstructured raw text
does issue a network call — send_signal with dry_run routes the POST to
the parse endpoint instead of synthesizing a local result — so the claim
that dryRun never issues a network call is false at this concrete input. -/
theorem c7_dry_run_signal_posts :
    send_signal { base_url := "http://api", parse_endpoint := "/parse",
                  execute_endpoint := "/execute", multi_user_enabled := false }
        "hello" true
      = SendDecision.networkPost "http://api/parse" "hello" := by
  decide

/-- Claim C7 amended: only the structured path is network-free under
dry-run — send_trade with dry_run synthesizes a success outcome whose
summary is the payload prefixed with the dry-run marker and issues no
network call, while send_signal with dry_run still issues a network POST,
merely redirected to the parse endpoint. -/
theorem c7_dry_run_behavior :
    (∀ (cfg : ApiConfig) (req : String),
        send_trade cfg req true =
          SendDecision.dryRunResult
            { success := true, status_code := 200,
              summary := "[DRY RUN] " ++ req }) ∧
    (∀ (cfg : ApiConfig) (m : String),
        send_signal cfg m true =
          SendDecision.networkPost (cfg.base_url ++ cfg.parse_endpoint) m) :=
  ⟨fun _ _ => rfl, fun _ _ => rfl⟩

/-! ## Claim C2 -/

/-- Claim C2 counterexample: the auto-suffixing step of candidate
validation is case-sensitive — canonicalizing "btc" yields "btcUSDT",
which differs from canonicalizing "BTC" (= "BTCUSDT") — so the claimed
case-insensitive agreement on the known short name is false on the code
(the short-name mapping lives only in the external classifier prompt). -/
theorem c2_canonicalize_case_sensitive :
    canonicalizeSymbol "btc".data ≠ canonicalizeSymbol "BTC".data := by
  decide

/-- Claim C2 amended: the auto-suffixing step is idempotent — a symbol
already ending with the canonical quote-currency suffix is returned
unchanged — but it is case-sensitive: "BTC" canonicalizes to "BTCUSDT"
while "btc" canonicalizes to "btcUSDT". -/
theorem c2_canonicalize_idempotent_case_sensitive :
    (∀ s : List Char, pyEndsWith s USDT = true → canonicalizeSymbol s = s) ∧
    canonicalizeSymbol "BTC".data = "BTCUSDT".data ∧
    canonicalizeSymbol "btc".data = "btcUSDT".data := by
  refine ⟨fun s h => ?_, by decide, by decide⟩
  unfold canonicalizeSymbol
  rw [h]
  rfl

/-- Witness for c2_canonicalize_idempotent_case_sensitive at the concrete
already-canonical symbol "ETHUSDT". -/
theorem c2_canonicalize_idempotent_case_sensitive_witness :
    pyEndsWith "ETHUSDT".data USDT = true ∧
    canonicalizeSymbol "ETHUSDT".data = "ETHUSDT".data :=
  ⟨by decide,
   c2_canonicalize_idempotent_case_sensitive.1 "ETHUSDT".data (by decide)⟩

/-! ## Claim C5 -/

/-- Claim C5 counterexample: a CLOSE candidate with no symbol and no
close_ratio is rejected by _validate, so rejection is not equivalent to
"close_ratio present and outside (0,1]" over all CLOSE candidates — the
missing-symbol check rejects first. -/
theorem c5_close_reject_without_symbol :
    (_validate { action := some "CLOSE" }).1 = false ∧
    ({ action := some "CLOSE" } : Candidate).close_ratio = none :=
  ⟨rfl, rfl⟩

/-- Claim C5 amended: for every CLOSE candidate that carries a non-empty
symbol, validation rejects it if and only if close_ratio is present and
not in (0,1]. -/
theorem c5_close_ratio_validation (p : Candidate)
    (hA : p.action = some "CLOSE") (hS : truthyChars p.symbol = true) :
    ((_validate p).1 = false ↔
      ∃ r, p.close_ratio = some r ∧ (r ≤ 0 ∨ 1 < r)) := by
  have h1 : ¬((!truthyStr p.action) = true) := by rw [hA]; decide
  have h2 : ¬(p.action = some "INFO") := by rw [hA]; decide
  have h3 : ¬((!truthyChars p.symbol) = true) := by rw [hS]; decide
  unfold _validate
  rw [if_neg h1, if_neg h2, if_neg h3, hA]
  rw [if_neg (by decide), if_neg (by decide), if_neg (by decide),
      if_pos (show (some "CLOSE" : Option String) = some "CLOSE" from rfl)]
  cases hr : p.close_ratio with
  | none => simp
  | some r =>
      simp [not_lt, not_le]
      constructor
      · intro h
        rcases le_or_lt r 0 with h0 | h0
        · exact Or.inl h0
        · exact Or.inr (h h0)
      · intro h h0
        rcases h with h | h
        · exact absurd h0 (not_lt.mpr h)
        · exact h

/-- Witness for c5_close_ratio_validation at the concrete CLOSE candidate
with symbol BTCUSDT and close_ratio 2. -/
theorem c5_close_ratio_validation_witness :
    ((_validate { action := some "CLOSE", symbol := some "BTCUSDT".data,
                  close_ratio := some 2 }).1 = false ↔
      ∃ r, ({ action := some "CLOSE", symbol := some "BTCUSDT".data,
              close_ratio := some 2 } : Candidate).close_ratio = some r ∧
           (r ≤ 0 ∨ 1 < r)) :=
  c5_close_ratio_validation _ rfl (by decide)

/-! ## Claim C6 -/

/-- Claim C6 counterexample: an ENTRY candidate with side LONG and a
non-zero entry_price but no symbol (and is_dca absent, hence false) is
rejected by _validate, so acceptance is not equivalent to
"side present and entry_price present and non-zero" over all non-DCA
ENTRY candidates — the missing-symbol check rejects first. -/
theorem c6_entry_reject_without_symbol :
    (_validate { action := some "ENTRY", side := some "LONG",
                 entry_price := some 1 }).1 = false ∧
    ({ action := some "ENTRY", side := some "LONG", entry_price := some 1 }
        : Candidate).is_dca = none :=
  ⟨rfl, rfl⟩

/-- Claim C6 amended: for every ENTRY candidate that carries a non-empty
symbol, when is_dca is falsy, validation accepts it if and only if side is
LONG or SHORT and entry_price is present and non-zero; when is_dca is
truthy, acceptance requires entry_price to be present, and a concrete
accepted DCA candidate with no side shows that side may be absent. -/
theorem c6_entry_validation :
    (∀ p : Candidate, p.action = some "ENTRY" → truthyChars p.symbol = true →
        truthyFlag p.is_dca = false →
        ((_validate p).1 = true ↔
          ((p.side = some "LONG" ∨ p.side = some "SHORT") ∧
           ∃ e, p.entry_price = some e ∧ e ≠ 0))) ∧
    (∀ p : Candidate, p.action = some "ENTRY" → truthyFlag p.is_dca = true →
        (_validate p).1 = true → ∃ e, p.entry_price = some e) ∧
    ((_validate { action := some "ENTRY", symbol := some "BTCUSDT".data,
                  entry_price := some 1, is_dca := some true }).1 = true ∧
     ({ action := some "ENTRY", symbol := some "BTCUSDT".data,
        entry_price := some 1, is_dca := some true } : Candidate).side = none) := by
  refine ⟨?_, ?_, ⟨by decide, rfl⟩⟩
  · intro p hA hS hd
    have h1 : ¬((!truthyStr p.action) = true) := by rw [hA]; decide
    have h2 : ¬(p.action = some "INFO") := by rw [hA]; decide
    have h3 : ¬((!truthyChars p.symbol) = true) := by rw [hS]; decide
    unfold _validate
    rw [if_neg h1, if_neg h2, if_neg h3, hA,
        if_pos (show (some "ENTRY" : Option String) = some "ENTRY" from rfl),
        if_neg (by rw [hd]; decide)]
    cases he : p.entry_price with
    | none => simp [truthyNum]
    | some e => simp [truthyNum, Bool.and_eq_true, decide_eq_true_eq]
  · intro p hA hd hv
    by_cases h3 : (!truthyChars p.symbol) = true
    · unfold _validate at hv
      rw [if_neg (by rw [hA]; decide), if_neg (by rw [hA]; decide),
          if_pos h3] at hv
      simp at hv
    · unfold _validate at hv
      rw [if_neg (by rw [hA]; decide), if_neg (by rw [hA]; decide),
          if_neg h3, hA,
          if_pos (show (some "ENTRY" : Option String) = some "ENTRY" from rfl),
          if_pos hd] at hv
      cases he : p.entry_price with
      | none => rw [he] at hv; simp [truthyNum] at hv
      | some e => exact ⟨e, rfl⟩

/-- Witness for c6_entry_validation: the non-DCA clause applied at a
concrete accepted SHORT entry, and the DCA clause applied at a concrete
accepted side-less DCA entry. -/
theorem c6_entry_validation_witness :
    (_validate { action := some "ENTRY", symbol := some "ETHUSDT".data,
                 side := some "SHORT", entry_price := some 5 }).1 = true ∧
    ∃ e, ({ action := some "ENTRY", symbol := some "BTCUSDT".data,
            entry_price := some 1, is_dca := some true }
              : Candidate).entry_price = some e := by
  constructor
  · exact (c6_entry_validation.1
      { action := some "ENTRY", symbol := some "ETHUSDT".data,
        side := some "SHORT", entry_price := some 5 }
      rfl (by decide) rfl).mpr ⟨Or.inr rfl, 5, rfl, by norm_num⟩
  · exact c6_entry_validation.2.1
      { action := some "ENTRY", symbol := some "BTCUSDT".data,
        entry_price := some 1, is_dca := some true }
      rfl rfl (by decide)

/-! ## Claim C10 -/

/-- Claim C10: every candidate accepted by _validate whose action is not
INFO leaves validation with a symbol ending in "USDT" — the validator
appends the suffix in place when it is missing, so every structured
payload sent downstream carries a USDT-suffixed symbol. -/
theorem c10_symbol_suffix_invariant (p : Candidate)
    (hv : (_validate p).1 = true) (hI : p.action ≠ some "INFO") :
    ∃ s, (_validate p).2.symbol = some s ∧ pyEndsWith s USDT = true := by
  by_cases h1 : (!truthyStr p.action) = true
  · unfold _validate at hv
    rw [if_pos h1] at hv
    simp at hv
  · by_cases h2 : p.action = some "INFO"
    · exact absurd h2 hI
    · by_cases h3 : (!truthyChars p.symbol) = true
      · unfold _validate at hv
        rw [if_neg h1, if_neg h2, if_pos h3] at hv
        simp at hv
      · have hsnd : (_validate p).2 =
            (if !pyEndsWith (p.symbol.getD []) USDT then
               { p with symbol := some (p.symbol.getD [] ++ USDT) }
             else p) := by
          unfold _validate
          rw [if_neg h1, if_neg h2, if_neg h3]
        by_cases h4 : pyEndsWith (p.symbol.getD []) USDT = true
        · refine ⟨p.symbol.getD [], ?_, h4⟩
          rw [hsnd, if_neg (by rw [h4]; decide)]
          cases hsym : p.symbol with
          | none => rw [hsym] at h3; exact absurd rfl h3
          | some sym => rfl
        · have h4' : pyEndsWith (p.symbol.getD []) USDT = false := by
            cases hb : pyEndsWith (p.symbol.getD []) USDT
            · rfl
            · exact absurd hb h4
          refine ⟨p.symbol.getD [] ++ USDT, ?_, ?_⟩
          · rw [hsnd, if_pos (by rw [h4']; decide)]
          · show decide (USDT <:+ p.symbol.getD [] ++ USDT) = true
            exact decide_eq_true (List.suffix_append _ _)

/-- Witness for c10_symbol_suffix_invariant at the concrete accepted
CANCEL candidate whose symbol "BTC" lacks the suffix. -/
theorem c10_symbol_suffix_invariant_witness :
    ∃ s, (_validate { action := some "CANCEL",
                      symbol := some "BTC".data }).2.symbol = some s ∧
         pyEndsWith s USDT = true :=
  c10_symbol_suffix_invariant _ (by decide) (by decide)

/-! ## Claim C3 -/

theorem contains_any_text_ne_nil (text : List Char) (kws : List (List Char))
    (h : _contains_any text kws = true) : text.isEmpty = false := by
  by_cases he : text.isEmpty = true
  · unfold _contains_any at h
    rw [if_pos (by rw [he, Bool.true_or])] at h
    exact absurd h (by decide)
  · cases hb : text.isEmpty
    · rfl
    · exact absurd hb he

theorem detect_close_eq_true (m : List Char)
    (hc : _contains_any m close_keywords = true)
    (hh : _contains_any m holding_keywords = false) :
    detect_close m = true := by
  have hne : m.isEmpty = false := contains_any_text_ne_nil m close_keywords hc
  unfold detect_close
  rw [if_neg (by rw [hne]; decide), if_neg (by rw [hc]; decide),
      if_neg (by rw [hh]; decide)]

theorem detect_close_eq_false_of_holding (m : List Char)
    (hh : _contains_any m holding_keywords = true) :
    detect_close m = false := by
  unfold detect_close
  by_cases he : m.isEmpty = true
  · rw [if_pos he]
  · rw [if_neg he]
    by_cases hc : _contains_any m close_keywords = true
    · rw [if_neg (by rw [hc]; decide), if_pos hh]
    · have hc' : _contains_any m close_keywords = false := by
        cases hb : _contains_any m close_keywords
        · rfl
        · exact absurd hb hc
      rw [if_pos (by rw [hc']; decide)]

/-- Claim C3: whenever the primary classifier fails outright (none) or
returns INFO, the rescue step escalates to CLOSE exactly when the text
contains a close keyword and no hold keyword — installing the BTCUSDT
fallback symbol when none was present and stamping a non-empty refinement
note — and leaves the result untouched (INFO / no structured action) when
both a close keyword and a hold keyword are present. -/
theorem c3_detector_escalation (parsed : Option Candidate) (content : List Char)
    (hin : parsed = none ∨ ∃ p, parsed = some p ∧ p.action = some "INFO") :
    ((_contains_any content close_keywords = true ∧
      _contains_any content holding_keywords = false) →
      ∃ q, _forward_signal_refine parsed content = some q ∧
        q.action = some "CLOSE" ∧
        (∃ note, q._detector_refinement = some note ∧ note ≠ "") ∧
        (symbolAbsent parsed = true → q.symbol = some "BTCUSDT".data)) ∧
    ((_contains_any content close_keywords = true ∧
      _contains_any content holding_keywords = true) →
      _forward_signal_refine parsed content = parsed) := by
  constructor
  · rintro ⟨hc, hh⟩
    have hd : detect_close content = true := detect_close_eq_true content hc hh
    rcases hin with h | ⟨p, hp, hINFO⟩
    · subst h
      refine ⟨{ action := some "CLOSE", symbol := some "BTCUSDT".data,
                _detector_refinement :=
                  some "NONE→CLOSE by TradeActionDetector" },
              ?_, rfl, ⟨_, rfl, by decide⟩, fun _ => rfl⟩
      simp only [_forward_signal_refine]
      rw [if_pos hd]
    · subst hp
      refine ⟨{ p with
                action := some "CLOSE",
                _detector_refinement :=
                  some "INFO→CLOSE by TradeActionDetector",
                symbol := if !truthyChars p.symbol then some "BTCUSDT".data
                          else p.symbol },
              ?_, rfl, ⟨_, rfl, by decide⟩, ?_⟩
      · simp only [_forward_signal_refine]
        rw [if_pos hINFO, if_pos hd]
      · intro habs
        have habs' : (!truthyChars p.symbol) = true := habs
        show (if !truthyChars p.symbol then some "BTCUSDT".data
              else p.symbol) = some "BTCUSDT".data
        rw [if_pos habs']
  · rintro ⟨hc, hh⟩
    have hd : detect_close content = false :=
      detect_close_eq_false_of_holding content hh
    rcases hin with h | ⟨p, hp, hINFO⟩
    · subst h
      simp only [_forward_signal_refine]
      rw [if_neg (by rw [hd]; decide)]
    · subst hp
      simp only [_forward_signal_refine]
      rw [if_pos hINFO, if_neg (by rw [hd]; decide)]

/-- Witness for c3_detector_escalation at two concrete texts: a pure
close-keyword text with a failed classifier, and a text carrying both a
close and a hold keyword. -/
theorem c3_detector_escalation_witness :
    (∃ q, _forward_signal_refine none "止盈出局".data = some q ∧
        q.action = some "CLOSE" ∧
        (∃ note, q._detector_refinement = some note ∧ note ≠ "") ∧
        (symbolAbsent none = true → q.symbol = some "BTCUSDT".data)) ∧
    _forward_signal_refine none "先平仓，继续持有一半".data = none := by
  constructor
  · exact (c3_detector_escalation none "止盈出局".data (Or.inl rfl)).1
      ⟨by decide, by decide⟩
  · exact (c3_detector_escalation none "先平仓，继续持有一半".data
      (Or.inl rfl)).2 ⟨by decide, by decide⟩

/-! ## Claim C8 -/

theorem handle_py_mem_dropped (pick : List String → List String)
    (r : RouterConfig) (seen : List String) (msg : Msg)
    (h : msg.id ∈ seen) :
    handle_message_py pick r seen msg = (seen, HandleOutcome.dropped) := by
  unfold handle_message_py
  rw [if_pos h]
  simp only [ite_self]

theorem x_not_mem_overfullSeen : "x" ∉ overfullSeen := by
  intro h
  obtain ⟨n, -, hn⟩ := List.mem_map.mp h
  have h2 := congrArg String.data hn
  rw [String.data_append] at h2
  have h3 : 'i' :: (toString n).data = ['x'] := h2
  injection h3 with h4 h5
  exact absurd h4 (by decide)

theorem overfullSeen_append_length :
    (overfullSeen ++ ["x"]).length = 10001 := by
  rw [List.length_append, List.length_singleton]
  unfold overfullSeen
  rw [List.length_map, List.length_range]

theorem handle_overfull_first :
    handle_message_py pickXFirst {} overfullSeen
        { id := "x", content := "hi".data }
      = (overfullSeen.drop 4999, HandleOutcome.forwarded "hi".data) := by
  have htrim : _trim_dedup_set_py pickXFirst (overfullSeen ++ ["x"])
      = overfullSeen.drop 4999 := by
    unfold _trim_dedup_set_py
    rw [if_pos (by rw [overfullSeen_append_length]; decide)]
    show ("x" :: (overfullSeen ++ ["x"]).erase "x").drop 5000
      = overfullSeen.drop 4999
    rw [List.erase_append_right ["x"] x_not_mem_overfullSeen,
        List.erase_cons_head, List.append_nil]
    show ("x" :: overfullSeen).drop (4999 + 1) = overfullSeen.drop 4999
    rw [List.drop_succ_cons]
  have h5 : ¬(({ id := "x", content := "hi".data } : Msg).id ∈ overfullSeen) :=
    x_not_mem_overfullSeen
  unfold handle_message_py
  rw [if_neg (by decide), if_neg (by decide), if_neg (by decide),
      if_neg (by decide), if_neg h5, if_pos (by decide)]
  show (_trim_dedup_set_py pickXFirst (overfullSeen ++ ["x"]),
        HandleOutcome.forwarded "hi".data)
      = (overfullSeen.drop 4999, HandleOutcome.forwarded "hi".data)
  rw [htrim]

theorem handle_overfull_second :
    (handle_message_py pickXFirst {} (overfullSeen.drop 4999)
        { id := "x", content := "hi".data }).2
      = HandleOutcome.forwarded "hi".data := by
  have h5 : ¬(({ id := "x", content := "hi".data } : Msg).id ∈
      overfullSeen.drop 4999) :=
    fun h => x_not_mem_overfullSeen (List.mem_of_mem_drop h)
  unfold handle_message_py
  rw [if_neg (by decide), if_neg (by decide), if_neg (by decide),
      if_neg (by decide), if_neg h5, if_pos (by decide)]
  rfl

/-- Claim C8 counterexample: under the faithful trim model the
at-most-once consequence fails at the ceiling boundary.  With a full
10,000-identifier seen-state and a legal enumeration of the overflowing
collection (a permutation, as Python's arbitrary hash order may produce)
that happens to list the fresh identifier first, handling the same event
twice forwards it twice: the first handling forwards it and the trim
evicts its identifier, so the second handling forwards it again. -/
theorem c8_trim_can_evict_fresh_id :
    (pickXFirst (overfullSeen ++ ["x"])).Perm (overfullSeen ++ ["x"]) ∧
    handle_message_py pickXFirst {} overfullSeen
        { id := "x", content := "hi".data }
      = (overfullSeen.drop 4999, HandleOutcome.forwarded "hi".data) ∧
    (handle_message_py pickXFirst {} (overfullSeen.drop 4999)
        { id := "x", content := "hi".data }).2
      = HandleOutcome.forwarded "hi".data :=
  ⟨(List.perm_cons_erase
      (List.mem_append_right overfullSeen (List.mem_singleton_self "x"))).symm,
   handle_overfull_first, handle_overfull_second⟩

/-- Claim C8 amended: for every set-enumeration order, an event whose
identifier is already in the seen collection is dropped with the state
unchanged, regardless of all its other fields; and handling the same
event twice forwards it at most once provided the first handling did not
push the collection past the 10,000 ceiling (so no trim fired).  At the
boundary the trim keeps an arbitrary half of the collection, which may
evict the just-added identifier. -/
theorem c8_dedup_guarantees :
    (∀ (pick : List String → List String) (r : RouterConfig)
        (seen : List String) (msg : Msg),
        msg.id ∈ seen →
        handle_message_py pick r seen msg = (seen, HandleOutcome.dropped)) ∧
    (∀ (pick : List String → List String) (r : RouterConfig)
        (seen st2 : List String) (msg : Msg) (c : List Char),
        seen.length < _max_dedup_size →
        handle_message_py pick r seen msg = (st2, HandleOutcome.forwarded c) →
        (handle_message_py pick r st2 msg).2 = HandleOutcome.dropped) := by
  constructor
  · exact handle_py_mem_dropped
  · intro pick r seen st2 msg c hlen hfwd
    have htrim : _trim_dedup_set_py pick (seen ++ [msg.id])
        = seen ++ [msg.id] := by
      unfold _trim_dedup_set_py
      rw [if_neg (by rw [List.length_append, List.length_singleton]; omega)]
    have hmem : msg.id ∈ st2 := by
      unfold handle_message_py at hfwd
      split at hfwd
      · simp at hfwd
      · split at hfwd
        · simp at hfwd
        · split at hfwd
          · simp at hfwd
          · split at hfwd
            · simp at hfwd
            · split at hfwd
              · simp at hfwd
              · split at hfwd
                · injection hfwd with h1 h2
                  rw [← h1, htrim]
                  exact List.mem_append_right _ (List.mem_singleton_self _)
                · split at hfwd
                  · injection hfwd with h1 h2
                    rw [← h1, htrim]
                    exact List.mem_append_right _ (List.mem_singleton_self _)
                  · simp at hfwd
    exact congrArg Prod.snd (handle_py_mem_dropped pick r st2 msg hmem)

/-- Witness for c8_dedup_guarantees at a concrete enumeration (the
identity), a concrete filterless router, a concrete message, and concrete
small seen-states. -/
theorem c8_dedup_guarantees_witness :
    handle_message_py (fun l => l) {} ["1"]
        { id := "1", content := "hi".data } =
      (["1"], HandleOutcome.dropped) ∧
    (handle_message_py (fun l => l) {}
        (handle_message_py (fun l => l) {} []
            { id := "1", content := "hi".data }).1
        { id := "1", content := "hi".data }).2 = HandleOutcome.dropped := by
  constructor
  · exact c8_dedup_guarantees.1 (fun l => l) {} ["1"] _ (by decide)
  · exact c8_dedup_guarantees.2 (fun l => l) {} [] ["1"] _ "hi".data
      (by decide) (by decide)

theorem trim_py_identity (ids : List String) :
    _trim_dedup_set_py (fun l => l) ids = _trim_dedup_set ids := rfl

theorem handle_message_py_identity (r : RouterConfig) (seen : List String)
    (msg : Msg) :
    handle_message_py (fun l => l) r seen msg = handle_message r seen msg := rfl

/-! ## Claim C9 -/

theorem trim_length_le (l : List String)
    (h : l.length ≤ _max_dedup_size + 1) :
    (_trim_dedup_set l).length ≤ _max_dedup_size := by
  unfold _trim_dedup_set
  split
  · next hlen =>
      rw [List.length_drop]
      unfold _max_dedup_size at h hlen ⊢
      omega
  · next hlen => omega

theorem handle_step_bound (r : RouterConfig) (seen : List String) (msg : Msg)
    (h : seen.length ≤ _max_dedup_size) :
    ((handle_message r seen msg).1).length ≤ _max_dedup_size := by
  have hlen : (seen ++ [msg.id]).length ≤ _max_dedup_size + 1 := by
    rw [List.length_append, List.length_singleton]
    omega
  unfold handle_message
  split
  · exact h
  · split
    · exact h
    · split
      · exact h
      · split
        · exact h
        · split
          · exact h
          · split
            · exact trim_length_le _ hlen
            · split
              · exact trim_length_le _ hlen
              · exact trim_length_le _ hlen

theorem handleAll_bound (r : RouterConfig) (msgs : List Msg) :
    (handleAll r msgs).length ≤ _max_dedup_size := by
  unfold handleAll
  have key : ∀ (ms : List Msg) (st : List String),
      st.length ≤ _max_dedup_size →
      (ms.foldl (fun s m => (handle_message r s m).1) st).length
        ≤ _max_dedup_size := by
    intro ms
    induction ms with
    | nil => intro st h; simpa using h
    | cons m ms ih => intro st h; exact ih _ (handle_step_bound r st m h)
  exact key msgs [] (Nat.zero_le _)

/-- Claim C9: the seen collection is bounded — when an insertion pushes its
size past the 10,000 ceiling, the trim evicts the oldest half (the first
_max_dedup_size / 2 entries in insertion order), and over any sequence of
handled messages starting from the empty state the collection never holds
more than 10,001 identifiers after any handle call. -/
theorem c9_dedup_bounded (r : RouterConfig) (msgs : List Msg)
    (st : List String) (h : st.length > _max_dedup_size) :
    _trim_dedup_set st = st.drop (_max_dedup_size / 2) ∧
    (handleAll r msgs).length ≤ _max_dedup_size + 1 := by
  constructor
  · unfold _trim_dedup_set
    rw [if_pos h]
  · exact Nat.le_succ_of_le (handleAll_bound r msgs)

/-- Witness for c9_dedup_bounded at a concrete overfull state of 10,001
identifiers and the empty message sequence. -/
theorem c9_dedup_bounded_witness :
    _trim_dedup_set (List.replicate (_max_dedup_size + 1) "x") =
      (List.replicate (_max_dedup_size + 1) "x").drop (_max_dedup_size / 2) ∧
    (handleAll {} []).length ≤ _max_dedup_size + 1 :=
  c9_dedup_bounded {} [] _ (by rw [List.length_replicate]; omega)
